import Mathlib

/-!
Shallow embedding of the word-inference game bot (src/main.py).

Modelling conventions:
* Python `float` seconds and point values are modelled as exact rationals (ℚ);
  the decimal literals 1.1, 1.2, 5.01 of the source are exact in ℚ.
* Python dicts are modelled as insertion-ordered association lists
  `List (Nat × α)` with Python's update-in-place-or-append semantics;
  Python sets are lists used only through membership and add-if-absent.
* Telegram chat ids and user ids are `Nat`.
* `asyncio` timers are modelled by a `timer_task` flag on the game plus an
  arithmetic model of the delays `update_hint_timer` sleeps through; message
  sends are collected as a list of events.  Transport-only bookkeeping
  (`hint_message_id`) is not modelled.
* Randomness (`random.choice`) is modelled by an extra index argument `k`,
  interpreted modulo the number of eligible candidates; the current wall
  clock (`datetime.now`) is an explicit argument `now`.
* `str.lower` / `str.strip` are modelled for ASCII text (the game's data).
-/

/-- Model of Python `str.lower` (ASCII). -/
def strLower (s : String) : String := ⟨s.data.map Char.toLower⟩

/-- ASCII whitespace, for `str.strip`. -/
def isSpaceChar (c : Char) : Bool := c = ' ' || c = '\t' || c = '\n' || c = '\r'

/-- Model of Python `str.strip`. -/
def strTrim (s : String) : String :=
  ⟨((s.data.dropWhile isSpaceChar).reverse.dropWhile isSpaceChar).reverse⟩

/-- Python `dict` lookup: `m[k]` as an `Option`. -/
def dlookup {α : Type} (m : List (Nat × α)) (k : Nat) : Option α :=
  (m.find? (fun p => p.1 == k)).map Prod.snd

/-- Python `dict.get(k, v)`. -/
def dgetD {α : Type} (m : List (Nat × α)) (k : Nat) (v : α) : α :=
  (dlookup m k).getD v

/-- Python `m[k] = v`: update in place if the key exists, else append
(preserving dict insertion order). -/
def dset {α : Type} (m : List (Nat × α)) (k : Nat) (v : α) : List (Nat × α) :=
  if (dlookup m k).isSome then m.map (fun p => if p.1 == k then (k, v) else p)
  else m ++ [(k, v)]

/-- Python `del m[k]`. -/
def ddel {α : Type} (m : List (Nat × α)) (k : Nat) : List (Nat × α) :=
  m.filter (fun p => p.1 != k)

/-- Python `set.add` for a set of strings modelled as a list. -/
def saddStr (s : List String) (w : String) : List String :=
  if s.contains w then s else s ++ [w]

/-- Python `set.add` for a set of naturals modelled as a list. -/
def saddNat (s : List Nat) (n : Nat) : List Nat :=
  if s.contains n then s else s ++ [n]

/-! Game configuration constants (src/main.py lines 31-57). -/

def HINT_DURATION : Nat := 20

def MAX_HINTS : Nat := 5

def FAST_FINGER_BONUS_SECONDS : ℚ := 5

def NEAR_MISS_THRESHOLD : ℚ := 0.75

def STEAL_WINDOW_SECONDS : ℚ := 2

/-- `BASE_POINTS` dict: base points by hint index. -/
def BASE_POINTS : List (Nat × ℚ) := [(1, 10), (2, 8), (3, 6), (4, 4), (5, 2)]

/-- Milestone thresholds, in the insertion order of the `MILESTONES` dict. -/
def MILESTONES : List Nat := [50, 100, 150, 200]

/-- `calculate_points` (src/main.py lines 144-157): base by hint index
(default 0), +1 fast-finger bonus when `time_taken ≤ 5`, then the streak
multiplier. -/
def calculate_points (hint_number : Nat) (time_taken : ℚ) (streak : Nat) : ℚ :=
  let base := dgetD BASE_POINTS hint_number 0
  let base := if time_taken ≤ FAST_FINGER_BONUS_SECONDS then base + 1 else base
  let multiplier : ℚ := if streak ≥ 3 then 1.2 else if streak ≥ 2 then 1.1 else 1.0
  base * multiplier

/-! Model of `difflib.SequenceMatcher(None, a, b).ratio()` used by
`calculate_similarity`.  With no junk predicate (and inputs below the
autojunk threshold of 200 characters, which covers the game's data),
`ratio` is `2*M/(|a|+|b|)` where `M` is the total size of the matching
blocks found by repeatedly taking the longest common substring (ties:
least start in `a`, then least start in `b`) and recursing on both sides. -/

/-- Length of the common prefix of two character lists. -/
def commonPrefixLen : List Char → List Char → Nat
  | a :: as, b :: bs => if a = b then commonPrefixLen as bs + 1 else 0
  | _, _ => 0

/-- `find_longest_match` over whole lists: returns `(i, j, size)` of the
longest common substring, preferring least `i`, then least `j` (the query
order of the source's dynamic program). -/
def bestBlock (a b : List Char) : Nat × Nat × Nat :=
  (List.range a.length).foldl (fun best i =>
      (List.range b.length).foldl (fun best j =>
          let k := commonPrefixLen (a.drop i) (b.drop j)
          if k > best.2.2 then (i, j, k) else best)
        best)
    (0, 0, 0)

/-- Total matched characters of `get_matching_blocks` (fuel-structured so the
kernel can evaluate it; `a.length` is enough fuel since each recursive call
strictly shortens the first list). -/
def matchingSum : Nat → List Char → List Char → Nat
  | 0, _, _ => 0
  | fuel + 1, a, b =>
    let ijk := bestBlock a b
    if ijk.2.2 = 0 then 0
    else
      matchingSum fuel (a.take ijk.1) (b.take ijk.2.1) + ijk.2.2 +
        matchingSum fuel (a.drop (ijk.1 + ijk.2.2)) (b.drop (ijk.2.1 + ijk.2.2))

/-- `calculate_similarity` (src/main.py lines 134-136): SequenceMatcher ratio
over lowercased strings (1.0 when both are empty, as in difflib). -/
def calculate_similarity (str1 str2 : String) : ℚ :=
  let a := (strLower str1).data
  let b := (strLower str2).data
  if a.length + b.length = 0 then 1
  else (2 * (matchingSum (a.length + 1) a b : ℚ)) / (a.length + b.length)

/-- `is_near_miss` (src/main.py lines 139-141). -/
def is_near_miss (guess answer : String) : Bool :=
  calculate_similarity guess answer ≥ NEAR_MISS_THRESHOLD

/-! The per-hint countdown (src/main.py `update_hint_timer`, lines 413-452).
The coroutine sleeps `duration - c` seconds for each checkpoint `c` in
`[10, 5]`, then a final 5 seconds, and then (if the question is still
unresolved) re-invokes `start_hint`.  The total scheduled delay between
arming the timer and advancing the hint is therefore the sum below. -/

def timer_checkpoints : List Nat := [10, 5]

/-- Total time slept by `update_hint_timer(context, chat_id, duration)`
before it calls `start_hint` again. -/
def update_hint_timer_total_delay (duration : Nat) : Nat :=
  (timer_checkpoints.map (fun c => duration - c)).sum + 5

/-! Data model (src/main.py classes `GameState`, `DailyData`, `ActiveGame`). -/

/-- One question record of the question bank. -/
structure Question where
  word : String
  category : String
  hints : List String
deriving DecidableEq

/-- `DailyData` (src/main.py lines 91-110): per-room daily accumulators. -/
structure DailyData where
  used_words : List String
  leaderboard : List (Nat × ℚ)
  streaks : List (Nat × Nat)
  steal_used : List (Nat × Bool)
  fastest_guesses : List (Nat × ℚ)
  total_correct : List (Nat × Nat)
  user_names : List (Nat × String)
  milestones_reached : List (Nat × List Nat)
deriving DecidableEq

/-- `DailyData.__init__`: everything empty. -/
def DailyData.init : DailyData :=
  { used_words := [], leaderboard := [], streaks := [], steal_used := [],
    fastest_guesses := [], total_correct := [], user_names := [],
    milestones_reached := [] }

/-- `DailyData.reset` (src/main.py lines 102-110): clears `used_words`,
`leaderboard`, `streaks`, `steal_used`, `fastest_guesses`, `total_correct`
and `milestones_reached`.  (`user_names` is not touched by the source.) -/
def DailyData.reset (d : DailyData) : DailyData :=
  { d with
    used_words := [], leaderboard := [], streaks := [], steal_used := [],
    fastest_guesses := [], total_correct := [], milestones_reached := [] }

/-- `ActiveGame` (src/main.py lines 113-128).  `timer_task` is `true` while a
countdown task is pending. -/
structure ActiveGame where
  group_id : Nat
  total_questions : Nat
  current_question_num : Nat
  current_question : Option Question
  current_hint : Nat
  hint_start_time : Option ℚ
  answered : Bool
  first_messages : List (Nat × String)
  category_revealed : Bool
  wrong_guessers : List (Nat × ℚ)
  near_miss_shown : List Nat
  timer_task : Bool
  game_leaderboard : List (Nat × ℚ)
deriving DecidableEq

/-- `ActiveGame.__init__(group_id, total_questions)`. -/
def ActiveGame.init (group_id total_questions : Nat) : ActiveGame :=
  { group_id := group_id, total_questions := total_questions,
    current_question_num := 0, current_question := none, current_hint := 0,
    hint_start_time := none, answered := false, first_messages := [],
    category_revealed := false, wrong_guessers := [], near_miss_shown := [],
    timer_task := false, game_leaderboard := [] }

/-- The process-wide `GameState`. -/
structure GameState where
  active_games : List (Nat × ActiveGame)
  daily_data : List (Nat × DailyData)
  questions : List Question
deriving DecidableEq

/-- Observable outputs of the handlers (chat messages and edits), reduced to
the data they carry. -/
inductive BotEvent where
  | privateOnly
  | alreadyActive
  | chooseCount
  | noQuestions
  | gameStarting (n : Nat)
  | questionIntro (num total : Nat)
  | hintShown (hint qnum : Nat) (category : Option String)
  | timeUp (answer : String)
  | correctResult (user : Nat) (answer : String) (points time_taken : ℚ)
      (streak : Nat) (steal_from : Option Nat)
  | leaderboardShown
  | milestoneHit (user : Nat) (threshold : Nat)
  | nearMiss (user : Nat)
  | gameEndedNoScores
  | gameComplete
deriving DecidableEq

/-- Data reported by a correct-guess resolution (the fields of the source's
result message plus the milestones announced). -/
structure CorrectOutcome where
  points : ℚ
  time_taken : ℚ
  streak : Nat
  steal_from : Option Nat
  milestones_hit : List Nat
deriving DecidableEq

/-! State helpers mirroring the in-place mutations of the source. -/

def set_game (st : GameState) (chat : Nat) (g : ActiveGame) : GameState :=
  { st with active_games := dset st.active_games chat g }

def set_daily (st : GameState) (chat : Nat) (d : DailyData) : GameState :=
  { st with daily_data := dset st.daily_data chat d }

/-- `if group_id not in self.daily_data: self.daily_data[group_id] = DailyData()`. -/
def ensure_daily (st : GameState) (chat : Nat) : GameState :=
  if (dlookup st.daily_data chat).isSome then st
  else set_daily st chat DailyData.init

/-- Apply an update to the room's `DailyData` (a no-op if absent, which the
source never hits because the callers create it first). -/
def modify_daily (st : GameState) (chat : Nat) (f : DailyData → DailyData) : GameState :=
  match dlookup st.daily_data chat with
  | none => st
  | some d => set_daily st chat (f d)

/-- `daily_data[chat_id].used_words.add(word)`. -/
def add_used_word (st : GameState) (chat : Nat) (w : String) : GameState :=
  modify_daily st chat (fun d => { d with used_words := saddStr d.used_words w })

/-- `GameState.get_random_unused_question` (src/main.py lines 76-88): lazily
creates the room's `DailyData`, filters out questions whose lowercased word
was already used today, and picks one (`random.choice` modelled by the index
`k` taken modulo the number of candidates). -/
def get_random_unused_question (st : GameState) (chat : Nat) (k : Nat) :
    GameState × Option Question :=
  let st := ensure_daily st chat
  let used := ((dlookup st.daily_data chat).getD DailyData.init).used_words
  let available := st.questions.filter (fun q => !(used.contains (strLower q.word)))
  (st, available.get? (k % available.length))

/-- `play_command` (src/main.py lines 264-296): rejected in private chats;
rejected while a game is active; otherwise shows the question-count
keyboard (no state change in any branch). -/
def play_command (st : GameState) (chat : Nat) (isPrivateChat : Bool) :
    GameState × List BotEvent :=
  if isPrivateChat then (st, [.privateOnly])
  else if (dlookup st.active_games chat).isSome then (st, [.alreadyActive])
  else (st, [.chooseCount])

/-- `end_game` (src/main.py lines 653-714): announces results (or the
no-scores message), cancels the timer and deletes the room's game. -/
def end_game (st : GameState) (chat : Nat) : GameState × List BotEvent :=
  match dlookup st.active_games chat with
  | none => (st, [])
  | some game =>
    if game.game_leaderboard.isEmpty then
      ({ st with active_games := ddel st.active_games chat }, [.gameEndedNoScores])
    else
      ({ st with active_games := ddel st.active_games chat }, [.gameComplete])

/-- The fastest-guess update of `handle_correct_guess` (src/main.py lines
515-516): record `t` iff the user has no entry yet or `t` is strictly
smaller. -/
def update_fastest (fastest : List (Nat × ℚ)) (user : Nat) (t : ℚ) :
    List (Nat × ℚ) :=
  match dlookup fastest user with
  | none => dset fastest user t
  | some f => if t < f then dset fastest user t else fastest

/-- The steal-eligibility decision of `handle_correct_guess` (src/main.py
lines 495-504): only when the current window's wrong-guess log is non-empty
and this user's steal flag is unset, take the first wrong guess (insertion
order) within `STEAL_WINDOW_SECONDS` of now. -/
def steal_decision (game : ActiveGame) (daily : DailyData) (user : Nat)
    (now : ℚ) : Option Nat :=
  if !game.wrong_guessers.isEmpty && !(dgetD daily.steal_used user false) then
    (game.wrong_guessers.find?
        (fun p => decide (now - p.2 ≤ STEAL_WINDOW_SECONDS))).map Prod.fst
  else none

/-- `handle_correct_guess`, state-mutating part (src/main.py lines 487-569):
steal detection over the current window's wrong-guess log, streak increment,
scoring, leaderboard/fastest/correct-count updates, the steal penalty
(guarded, as in the source, by the Python truthiness of `stolen_from`),
resolution (`answered = True`, timer cancelled) and milestone bookkeeping.
The continuation to the next question / game end is `handle_correct_guess`
below. -/
def handle_correct_guess_core (st : GameState) (chat user : Nat) (now : ℚ) :
    GameState × CorrectOutcome :=
  match dlookup st.active_games chat, dlookup st.daily_data chat with
  | some game, some daily =>
    let time_taken := now - (game.hint_start_time.getD 0)
    let steal_from : Option Nat := steal_decision game daily user now
    let daily :=
      match steal_from with
      | some _ => { daily with steal_used := dset daily.steal_used user true }
      | none => daily
    let current_streak := dgetD daily.streaks user 0 + 1
    let daily := { daily with streaks := dset daily.streaks user current_streak }
    let points := calculate_points game.current_hint time_taken current_streak
    let daily := { daily with
      leaderboard := dset daily.leaderboard user (dgetD daily.leaderboard user 0 + points) }
    let game := { game with
      game_leaderboard :=
        dset game.game_leaderboard user (dgetD game.game_leaderboard user 0 + points) }
    let daily := { daily with
      fastest_guesses := update_fastest daily.fastest_guesses user time_taken }
    let daily := { daily with
      total_correct := dset daily.total_correct user (dgetD daily.total_correct user 0 + 1) }
    let pair :=
      match steal_from with
      | some victim =>
        if victim ≠ 0 then
          ({ daily with
              leaderboard :=
                dset daily.leaderboard victim (dgetD daily.leaderboard victim 0 - 1),
              streaks := dset daily.streaks victim 0 },
           { game with
              game_leaderboard :=
                dset game.game_leaderboard victim
                  (dgetD game.game_leaderboard victim 0 - 1) })
        else (daily, game)
      | none => (daily, game)
    let daily := pair.1
    let game := pair.2
    let game := { game with answered := true, timer_task := false }
    let total_points := dgetD daily.leaderboard user 0
    let reached := dgetD daily.milestones_reached user []
    let fold := MILESTONES.foldl
      (fun (acc : List Nat × List Nat) (m : Nat) =>
        if total_points ≥ (m : ℚ) && !(acc.1.contains m) then
          (acc.1 ++ [m], acc.2 ++ [m])
        else acc)
      (reached, [])
    let daily := { daily with
      milestones_reached := dset daily.milestones_reached user fold.1 }
    (set_game (set_daily st chat daily) chat game,
     ⟨points, time_taken, current_streak, steal_from, fold.2⟩)
  | _, _ => (st, ⟨0, 0, 0, none, []⟩)

/-! `start_question`, `start_hint` and `handle_no_answer` call each other
(`start_hint` past hint 5 resolves the question as unanswered, which starts
the next question); the mutual recursion is structured on a fuel argument.
Within any single inbound event the call depth is at most three, so any
fuel ≥ 2 computes the source's behaviour; fuel 0 only cuts the one cycle
that the source's own counters already make unreachable (a freshly started
question has hint index 1 ≤ 5). -/
mutual

/-- `start_question` (src/main.py lines 339-368): advance the question
counter, clear the per-question transient state, draw a new question when
past the first (ending the game if the bank is exhausted), record its word
used, and start hint 1. -/
def start_question : Nat → GameState → Nat → Nat → ℚ → GameState × List BotEvent
  | 0, st, _, _, _ => (st, [])
  | fuel + 1, st, chat, k, now =>
    match dlookup st.active_games chat with
    | none => (st, [])
    | some game =>
      let game := { game with
        current_question_num := game.current_question_num + 1,
        current_hint := 0, answered := false, category_revealed := false,
        first_messages := [], wrong_guessers := [], near_miss_shown := [] }
      if game.current_question_num > 1 then
        let st := set_game st chat game
        let draw := get_random_unused_question st chat k
        match draw.2 with
        | none => end_game draw.1 chat
        | some q =>
          let game := { game with current_question := some q }
          let st := set_game draw.1 chat game
          let st := add_used_word st chat (strLower q.word)
          let next := start_hint fuel st chat now k now
          (next.1,
           .questionIntro game.current_question_num game.total_questions :: next.2)
      else
        let st := set_game st chat game
        let next := start_hint fuel st chat now k now
        (next.1,
         .questionIntro game.current_question_num game.total_questions :: next.2)
termination_by structural fuel => fuel

/-- `start_hint` (src/main.py lines 371-410): bump the hint index, stamp the
window start, clear the per-window first-message and wrong-guess state; past
hint 5 resolve as unanswered, otherwise reveal the category exactly once at
hint 3, send the hint and (re)arm the countdown (cancelling any prior one).
`k`/`now2` feed the possible continuation into the next question. -/
def start_hint : Nat → GameState → Nat → ℚ → Nat → ℚ → GameState × List BotEvent
  | 0, st, _, _, _, _ => (st, [])
  | fuel + 1, st, chat, now, k, now2 =>
    match dlookup st.active_games chat with
    | none => (st, [])
    | some game =>
      if game.answered then (st, [])
      else
        let game := { game with
          current_hint := game.current_hint + 1, hint_start_time := some now,
          first_messages := [], wrong_guessers := [] }
        if game.current_hint > MAX_HINTS then
          handle_no_answer fuel (set_game st chat game) chat k now2
        else
          let reveal := game.current_hint == 3 && !game.category_revealed
          let game :=
            if reveal then { game with category_revealed := true } else game
          let category : Option String :=
            if reveal then
              some ((game.current_question.map Question.category).getD "Unknown")
            else none
          let game := { game with timer_task := true }
          (set_game st chat game,
           [.hintShown game.current_hint game.current_question_num category])
termination_by structural fuel => fuel

/-- `handle_no_answer` (src/main.py lines 593-615): announce the answer,
resolve the question, cancel the timer, then next question or game end. -/
def handle_no_answer : Nat → GameState → Nat → Nat → ℚ → GameState × List BotEvent
  | 0, st, _, _, _ => (st, [])
  | fuel + 1, st, chat, k, now2 =>
    match dlookup st.active_games chat with
    | none => (st, [])
    | some game =>
      let game := { game with answered := true, timer_task := false }
      let st := set_game st chat game
      let ev := BotEvent.timeUp ((game.current_question.map Question.word).getD "")
      if game.current_question_num < game.total_questions then
        let next := start_question fuel st chat k now2
        (next.1, ev :: next.2)
      else
        let next := end_game st chat
        (next.1, ev :: next.2)
termination_by structural fuel => fuel

end

/-- `game_selection_callback` (src/main.py lines 299-336): draw a question
(failing if the bank is exhausted for the room today), install a fresh
`ActiveGame` for the room — the source performs no already-active check
here — record the word used, announce the start and run `start_question`. -/
def game_selection_callback (fuel : Nat) (st : GameState) (chat : Nat)
    (num_questions k : Nat) (now : ℚ) : GameState × List BotEvent :=
  let draw := get_random_unused_question st chat k
  match draw.2 with
  | none => (draw.1, [.noQuestions])
  | some q =>
    let game := { ActiveGame.init chat num_questions with current_question := some q }
    let st := set_game draw.1 chat game
    let st := ensure_daily st chat
    let st := add_used_word st chat (strLower q.word)
    let next := start_question fuel st chat k now
    (next.1, .gameStarting num_questions :: next.2)

/-- `handle_correct_guess` (src/main.py lines 487-574): the state-mutating
core, the result / session-leaderboard / milestone messages, then the
continuation to the next question or the end of the game. -/
def handle_correct_guess (fuel : Nat) (st : GameState) (chat user : Nat)
    (now : ℚ) (k : Nat) (now2 : ℚ) : GameState × List BotEvent :=
  let answer :=
    (((dlookup st.active_games chat).bind ActiveGame.current_question).map
      Question.word).getD ""
  let core := handle_correct_guess_core st chat user now
  let out := core.2
  let evs := BotEvent.correctResult user answer out.points out.time_taken
      out.streak out.steal_from
    :: BotEvent.leaderboardShown :: out.milestones_hit.map (BotEvent.milestoneHit user)
  match dlookup core.1.active_games chat with
  | none => (core.1, evs)
  | some game =>
    if game.current_question_num < game.total_questions then
      let next := start_question fuel core.1 chat k now2
      (next.1, evs ++ next.2)
    else
      let next := end_game core.1 chat
      (next.1, evs ++ next.2)

/-- `handle_wrong_guess` (src/main.py lines 577-590): reset the guesser's
streak if present, log the wrong guess with its timestamp, and emit the
one-time near-miss signal when the guess is close and this user has not
been shown one this question. -/
def handle_wrong_guess (st : GameState) (chat user : Nat)
    (guess answer : String) (now : ℚ) : GameState × List BotEvent :=
  match dlookup st.active_games chat, dlookup st.daily_data chat with
  | some game, some daily =>
    let daily :=
      if (dlookup daily.streaks user).isSome then
        { daily with streaks := dset daily.streaks user 0 }
      else daily
    let game := { game with wrong_guessers := game.wrong_guessers ++ [(user, now)] }
    if is_near_miss guess answer ∧ ¬ game.near_miss_shown.contains user then
      let game := { game with near_miss_shown := saddNat game.near_miss_shown user }
      (set_game (set_daily st chat daily) chat game, [.nearMiss user])
    else
      (set_game (set_daily st chat daily) chat game, [])
  | _, _ => (st, [])

/-- `handle_message` (src/main.py lines 455-484): ignore rooms with no game,
resolved questions, and any but the first message of a user in the current
hint window; otherwise record the message and the display name, normalize
the guess (strip + lower) and dispatch on exact match with the answer. -/
def handle_message (fuel : Nat) (st : GameState) (chat user : Nat)
    (first_name text : String) (now : ℚ) (k : Nat) (now2 : ℚ) :
    GameState × List BotEvent :=
  match dlookup st.active_games chat with
  | none => (st, [])
  | some game =>
    if game.answered then (st, [])
    else if (dlookup game.first_messages user).isSome then (st, [])
    else
      let game := { game with first_messages := dset game.first_messages user text }
      let st := set_game st chat game
      let st := ensure_daily st chat
      let st := modify_daily st chat
        (fun d => { d with user_names := dset d.user_names user first_name })
      let correct_answer := strLower ((game.current_question.map Question.word).getD "")
      let user_guess := strLower (strTrim text)
      if user_guess = correct_answer then
        handle_correct_guess fuel st chat user now k now2
      else
        handle_wrong_guess st chat user user_guess correct_answer now

/-! Concrete fixtures used to exercise the model on closed inputs. -/

def qApple : Question := ⟨"apple", "fruit", ["h1", "h2", "h3", "h4", "h5"]⟩

def qBanana : Question := ⟨"banana", "fruit", ["h1", "h2", "h3", "h4", "h5"]⟩

/-- A room (id 99) mid-game: question 2 of 5 running, hint 1 active. -/
def gameMid : ActiveGame :=
  { ActiveGame.init 99 5 with
    current_question := some qApple, current_question_num := 2,
    current_hint := 1, hint_start_time := some 0, timer_task := true }

def dailyMid : DailyData := { DailyData.init with used_words := ["apple"] }

def stMid : GameState :=
  { active_games := [(99, gameMid)], daily_data := [(99, dailyMid)],
    questions := [qApple, qBanana] }

/-- A room (id 99) on question 1 of 3, hint 1 just started at time 0. -/
def gameFresh : ActiveGame :=
  { ActiveGame.init 99 3 with
    current_question := some qApple, current_question_num := 1,
    current_hint := 1, hint_start_time := some 0, timer_task := true }

def stFresh : GameState :=
  { active_games := [(99, gameFresh)], daily_data := [(99, DailyData.init)],
    questions := [qApple] }

/-- `stFresh` after user 1 sent the wrong first message "zzz" at t = 10. -/
def gameMsgd : ActiveGame :=
  { gameFresh with first_messages := [(1, "zzz")], wrong_guessers := [(1, 10)] }

def dailyMsgd : DailyData := { DailyData.init with user_names := [(1, "Alice")] }

def stMsgd : GameState :=
  { active_games := [(99, gameMsgd)], daily_data := [(99, dailyMsgd)],
    questions := [qApple] }

/-- The spec's steal scenario: user 1 guessed wrong at t = 0 in the current
window; user 2 is about to answer correctly at t = 3/2. -/
def gameSteal : ActiveGame :=
  { gameFresh with wrong_guessers := [(1, 0)] }

def stSteal : GameState :=
  { active_games := [(99, gameSteal)], daily_data := [(99, DailyData.init)],
    questions := [qApple] }

/-- The empty process state with a one-question bank, from which the
negative-total scenario is driven end to end. -/
def stStart : GameState :=
  { active_games := [], daily_data := [], questions := [qApple] }

/-- The daily ledger right after the game on `stStart` starts ("apple" is
marked used). -/
def dUsed : DailyData := { DailyData.init with used_words := ["apple"] }

/-- `stStart` after the selection callback started a 3-question game at
time 0. -/
def stQ1 : GameState :=
  { active_games := [(99, gameFresh)], daily_data := [(99, dUsed)],
    questions := [qApple] }

/-- `stQ1` after user 1's wrong guess "zzz" at t = 10. -/
def dWrong : DailyData := { dUsed with user_names := [(1, "Alice")] }

def stWrong : GameState :=
  { active_games := [(99, gameMsgd)], daily_data := [(99, dWrong)],
    questions := [qApple] }

/-- `stWrong` with user 2's first message "apple" recorded, at the point
where `handle_message` dispatches to the correct-guess handler. -/
def gameMsg2 : ActiveGame :=
  { gameMsgd with first_messages := [(1, "zzz"), (2, "apple")] }

def dMsg2 : DailyData := { dUsed with user_names := [(1, "Alice"), (2, "Bob")] }

def stMsg2 : GameState :=
  { active_games := [(99, gameMsg2)], daily_data := [(99, dMsg2)],
    questions := [qApple] }

/-- State after the correct-guess core resolved user 2's answer at t = 23/2:
user 2 gained 10 points, the steal hit user 1 for -1. -/
def dCore : DailyData :=
  { used_words := ["apple"], leaderboard := [(2, 10), (1, -1)],
    streaks := [(2, 1), (1, 0)], steal_used := [(2, true)],
    fastest_guesses := [(2, 23/2)], total_correct := [(2, 1)],
    user_names := [(1, "Alice"), (2, "Bob")], milestones_reached := [(2, [])] }

def gameCore : ActiveGame :=
  { gameMsg2 with
    answered := true, timer_task := false,
    game_leaderboard := [(2, 10), (1, -1)] }

def stCore : GameState :=
  { active_games := [(99, gameCore)], daily_data := [(99, dCore)],
    questions := [qApple] }

/-! Association-list lemmas used throughout. -/

theorem dlookup_cons {α : Type} (p : Nat × α) (m : List (Nat × α)) (k : Nat) :
    dlookup (p :: m) k = if p.1 == k then some p.2 else dlookup m k := by
  by_cases h : p.1 == k
  · simp [dlookup, List.find?_cons_of_pos, h]
  · simp only [Bool.not_eq_true] at h
    simp [dlookup, List.find?_cons_of_neg, h]

theorem dlookup_mapset_self {α : Type} (m : List (Nat × α)) (k : Nat) (v : α)
    (hs : (dlookup m k).isSome = true) :
    dlookup (m.map (fun p => if p.1 == k then (k, v) else p)) k = some v := by
  induction m with
  | nil => simp [dlookup] at hs
  | cons p m ih =>
    by_cases hp : p.1 = k
    · subst hp
      simp [List.map_cons, dlookup_cons]
    · rw [dlookup_cons] at hs
      simp only [beq_iff_eq, hp, if_false] at hs
      have hih := ih hs
      simp only [beq_iff_eq] at hih
      simp [List.map_cons, dlookup_cons, hp, hih]

theorem dlookup_mapset_ne {α : Type} (m : List (Nat × α)) (k k' : Nat) (v : α)
    (h : k' ≠ k) :
    dlookup (m.map (fun p => if p.1 == k then (k, v) else p)) k' = dlookup m k' := by
  induction m with
  | nil => simp
  | cons p m ih =>
    simp only [beq_iff_eq] at ih
    by_cases hp : p.1 = k
    · subst hp
      have hne : p.1 ≠ k' := fun e => h e.symm
      simp [List.map_cons, dlookup_cons, hne, ih]
    · simp [List.map_cons, dlookup_cons, hp, ih]

theorem dlookup_append_single_ne {α : Type} (m : List (Nat × α)) (k k' : Nat)
    (v : α) (h : k' ≠ k) : dlookup (m ++ [(k, v)]) k' = dlookup m k' := by
  have hk : (k == k') = false := by simpa using fun e => h e.symm
  simp [dlookup, List.find?_append, hk, Option.or_none]

theorem dlookup_dset_self {α : Type} (m : List (Nat × α)) (k : Nat) (v : α) :
    dlookup (dset m k v) k = some v := by
  unfold dset
  split
  case isTrue hs => exact dlookup_mapset_self m k v hs
  case isFalse hs =>
    have hnone : List.find? (fun p => p.1 == k) m = none := by
      cases hl : List.find? (fun p => p.1 == k) m with
      | none => rfl
      | some q => exact absurd (by simp [dlookup, hl]) hs
    simp [dlookup, List.find?_append, hnone]

theorem dlookup_dset_ne {α : Type} (m : List (Nat × α)) (k k' : Nat) (v : α)
    (h : k' ≠ k) : dlookup (dset m k v) k' = dlookup m k' := by
  unfold dset
  split
  case isTrue hs => exact dlookup_mapset_ne m k k' v h
  case isFalse hs => exact dlookup_append_single_ne m k k' v h

theorem dgetD_dset_self {α : Type} (m : List (Nat × α)) (k : Nat) (v d : α) :
    dgetD (dset m k v) k d = v := by
  simp [dgetD, dlookup_dset_self]

theorem dgetD_dset_ne {α : Type} (m : List (Nat × α)) (k k' : Nat) (v d : α)
    (h : k' ≠ k) : dgetD (dset m k v) k' d = dgetD m k' d := by
  simp [dgetD, dlookup_dset_ne _ _ _ _ h]
/-- Near-miss test, reduced to a kernel-computable comparison of naturals:
the ratio `2M/(la+lb)` is at least 3/4 iff `3(la+lb) ≤ 8M` (both sides hold
trivially when the strings are empty). -/
theorem is_near_miss_iff_nat (guess answer : String) :
    is_near_miss guess answer =
      decide (3 * ((strLower guess).data.length + (strLower answer).data.length) ≤
        8 * matchingSum ((strLower guess).data.length + 1) (strLower guess).data
          (strLower answer).data) := by
  unfold is_near_miss calculate_similarity NEAR_MISS_THRESHOLD
  apply decide_eq_decide.mpr
  by_cases h0 : (strLower guess).data.length + (strLower answer).data.length = 0
  · rw [if_pos h0, h0]
    norm_num
  · rw [if_neg h0]
    have hlen : (0:ℚ) <
        ((strLower guess).data.length : ℚ) + ((strLower answer).data.length : ℚ) := by
      have hp : 0 < (strLower guess).data.length + (strLower answer).data.length :=
        Nat.pos_of_ne_zero h0
      exact_mod_cast hp
    rw [ge_iff_le, le_div_iff₀ hlen]
    constructor
    · intro h
      have hq : (3:ℚ) * (((strLower guess).data.length : ℚ) +
          ((strLower answer).data.length : ℚ)) ≤
          8 * (matchingSum ((strLower guess).data.length + 1) (strLower guess).data
            (strLower answer).data : ℚ) := by linarith
      exact_mod_cast hq
    · intro h
      have hq : (3:ℚ) * (((strLower guess).data.length : ℚ) +
          ((strLower answer).data.length : ℚ)) ≤
          8 * (matchingSum ((strLower guess).data.length + 1) (strLower guess).data
            (strLower answer).data : ℚ) := by exact_mod_cast h
      linarith

/-- Closed form of the `BASE_POINTS` lookup with default 0. -/
theorem dgetD_BASE_POINTS (h : Nat) :
    dgetD BASE_POINTS h 0 =
      if h = 1 then (10:ℚ) else if h = 2 then 8 else if h = 3 then 6
      else if h = 4 then 4 else if h = 5 then 2 else 0 := by
  by_cases h1 : h = 1
  · subst h1; rfl
  by_cases h2 : h = 2
  · subst h2; rfl
  by_cases h3 : h = 3
  · subst h3; rfl
  by_cases h4 : h = 4
  · subst h4; rfl
  by_cases h5 : h = 5
  · subst h5; rfl
  have e1 : (1 == h) = false := beq_eq_false_iff_ne.mpr fun e => h1 e.symm
  have e2 : (2 == h) = false := beq_eq_false_iff_ne.mpr fun e => h2 e.symm
  have e3 : (3 == h) = false := beq_eq_false_iff_ne.mpr fun e => h3 e.symm
  have e4 : (4 == h) = false := beq_eq_false_iff_ne.mpr fun e => h4 e.symm
  have e5 : (5 == h) = false := beq_eq_false_iff_ne.mpr fun e => h5 e.symm
  simp [BASE_POINTS, dgetD, dlookup_cons, e1, e2, e3, e4, e5, h1, h2, h3, h4, h5,
    dlookup]

/-- C3: for every hint index, elapsed time and streak, `calculate_points`
returns `(base + bonus) * multiplier` where base follows the table
`{1:10, 2:8, 3:6, 4:4, 5:2}` (0 for any other index), the bonus is 1 exactly
when `elapsed ≤ 5` (inclusive: `points(1, 5, 0) = 11` and
`points(1, 5.01, 0) = 10`), and the multiplier is 1.2 for streak ≥ 3, else
1.1 for streak ≥ 2, else 1.0; base+bonus is computed before the multiplier
is applied. -/
theorem calculate_points_spec :
    (∀ (h : Nat) (t : ℚ) (s : Nat),
      calculate_points h t s =
        ((if h = 1 then (10:ℚ) else if h = 2 then 8 else if h = 3 then 6
          else if h = 4 then 4 else if h = 5 then 2 else 0) +
         (if t ≤ 5 then 1 else 0)) *
        (if 3 ≤ s then 1.2 else if 2 ≤ s then 1.1 else 1.0))
    ∧ calculate_points 1 5 0 = 11 ∧ calculate_points 1 5.01 0 = 10 := by
  refine ⟨fun h t s => ?_, ?_, ?_⟩
  · unfold calculate_points FAST_FINGER_BONUS_SECONDS
    rw [dgetD_BASE_POINTS]
    by_cases ht : t ≤ 5
    · simp [ht]
    · simp [ht]
  · norm_num [calculate_points, dgetD_BASE_POINTS, FAST_FINGER_BONUS_SECONDS]
  · norm_num [calculate_points, dgetD_BASE_POINTS, FAST_FINGER_BONUS_SECONDS]

/-- C8: the streak-multiplier equalities are exact:
`points(1, 10, 2) = 11` and `points(1, 10, 3) = 12`. -/
theorem streak_multiplier_values :
    calculate_points 1 10 2 = 11 ∧ calculate_points 1 10 3 = 12 := by
  constructor <;>
    norm_num [calculate_points, dgetD_BASE_POINTS, FAST_FINGER_BONUS_SECONDS]

/-- C5 (code bug): the countdown armed for a hint window sleeps
`(20-10) + (20-5) + 5 = 30` time units before re-invoking the hint advance,
not the fixed per-hint duration `HINT_DURATION = 20` that the source's
constants, rules text and displayed countdown promise. -/
theorem hint_timer_total_delay_is_thirty :
    update_hint_timer_total_delay HINT_DURATION = 30 ∧ HINT_DURATION = 20 :=
  ⟨rfl, rfl⟩

/-- C6 counterexample: `reset` does not clear the display-name map; on a
ledger whose `user_names` holds user 1, the entry survives the reset. -/
theorem daily_reset_keeps_user_names_cex :
    (DailyData.reset
      { DailyData.init with user_names := [(1, "Alice")] }).user_names
      = [(1, "Alice")] := rfl

/-- C6 (amended): `reset` clears `used_words`, `leaderboard` (points),
`streaks`, `steal_used`, `fastest_guesses`, `total_correct` and
`milestones_reached`, but leaves `user_names` (the display-name map)
untouched. -/
theorem daily_reset_amended (d : DailyData) :
    (DailyData.reset d).used_words = [] ∧
    (DailyData.reset d).leaderboard = [] ∧
    (DailyData.reset d).streaks = [] ∧
    (DailyData.reset d).steal_used = [] ∧
    (DailyData.reset d).fastest_guesses = [] ∧
    (DailyData.reset d).total_correct = [] ∧
    (DailyData.reset d).milestones_reached = [] ∧
    (DailyData.reset d).user_names = d.user_names :=
  ⟨rfl, rfl, rfl, rfl, rfl, rfl, rfl, rfl⟩
/-- C4: `submitGuess` (the message handler) is a no-op — state unchanged, no
events, no resolution — whenever the room's question is already resolved or
the sender already has a first message recorded in the current hint window. -/
theorem submit_guess_noop (fuel : Nat) (st : GameState) (chat user : Nat)
    (first_name text : String) (now : ℚ) (k : Nat) (now2 : ℚ) (g : ActiveGame)
    (hg : dlookup st.active_games chat = some g)
    (hcond : g.answered = true ∨ (dlookup g.first_messages user).isSome = true) :
    handle_message fuel st chat user first_name text now k now2 = (st, []) := by
  unfold handle_message
  rw [hg]
  rcases hcond with h | h
  · simp [h]
  · cases ha : g.answered
    · simp [ha, h]
    · simp [ha]

/-- The wrong first message of the two-step scenario: user 1 sends "zzz" at
t = 10 into the fresh room; the model records the message, the display name
and the wrong guess. -/
theorem after_wrong_message_eq :
    handle_message 2 stFresh 99 1 "Alice" "zzz" 10 0 0 = (stMsgd, []) := by
  have hg1 : strLower (strTrim "zzz") = "zzz" := by decide
  have hg2 : strLower "apple" = "apple" := by decide
  have hz : ("zzz" : String) ≠ "apple" := by decide
  have hnm : is_near_miss "zzz" "apple" = false := by
    rw [is_near_miss_iff_nat]; rfl
  norm_num [hg1, hg2, handle_message, handle_wrong_guess, stFresh, gameFresh, stMsgd,
    gameMsgd, dailyMsgd, ActiveGame.init, DailyData.init, qApple, set_game,
    set_daily, ensure_daily, modify_daily, dset, dlookup, dgetD, hz, hnm]

/-- C4 witness: wrong-then-correct by the same user in the same hint window;
the second message (the exact answer) does not resolve the question. -/
theorem submit_guess_noop_witness :
    handle_message 2 stFresh 99 1 "Alice" "zzz" 10 0 0 = (stMsgd, []) ∧
    dlookup stMsgd.active_games 99 = some gameMsgd ∧
    (dlookup gameMsgd.first_messages 1).isSome = true ∧
    handle_message 2 stMsgd 99 1 "Alice" "apple" 11 0 0 = (stMsgd, []) :=
  ⟨after_wrong_message_eq, rfl, rfl,
   submit_guess_noop 2 stMsgd 99 1 "Alice" "apple" 11 0 0 gameMsgd rfl
     (Or.inr rfl)⟩
/-- C1 counterexample: room 99 of `stMid` has a live 5-question session on
question 2, yet the question-count selection callback (the request that
actually creates the `Session`) installs a fresh 3-question session in its
place; no `AlreadyActive` rejection happens on this path. -/
theorem second_start_overwrites_cex :
    (dlookup stMid.active_games 99).map ActiveGame.total_questions = some 5 ∧
    (dlookup (game_selection_callback 2 stMid 99 3 0 0).1.active_games 99).map
        ActiveGame.total_questions = some 3 ∧
    BotEvent.alreadyActive ∉ (game_selection_callback 2 stMid 99 3 0 0).2 := by
  refine ⟨rfl, by decide, by decide⟩

theorem active_games_ensure_daily (st : GameState) (chat : Nat) :
    (ensure_daily st chat).active_games = st.active_games := by
  unfold ensure_daily set_daily
  split <;> rfl

theorem active_games_modify_daily (st : GameState) (chat : Nat)
    (f : DailyData → DailyData) :
    (modify_daily st chat f).active_games = st.active_games := by
  unfold modify_daily set_daily
  cases dlookup st.daily_data chat <;> rfl

theorem active_games_add_used_word (st : GameState) (chat : Nat) (w : String) :
    (add_used_word st chat w).active_games = st.active_games :=
  active_games_modify_daily st chat _

/-- Starting question 1 of a freshly installed session keeps its question
count: the room's game after `start_question` still carries
`total_questions` of the installed game, for every fuel. -/
theorem start_question_total_questions (fuel : Nat) (st : GameState)
    (chat k : Nat) (now : ℚ) (g : ActiveGame)
    (hg : dlookup st.active_games chat = some g)
    (hnum : g.current_question_num = 0) :
    (dlookup (start_question fuel st chat k now).1.active_games chat).map
      ActiveGame.total_questions = some g.total_questions := by
  cases fuel with
  | zero => simp [start_question, hg]
  | succ fuel =>
    unfold start_question
    rw [hg]
    simp only [hnum]
    cases fuel with
    | zero =>
      simp [start_hint, set_game, dlookup_dset_self]
    | succ fuel2 =>
      unfold start_hint
      simp [set_game, dlookup_dset_self, MAX_HINTS]

/-- C1 (amended): only the `/play` command is guarded — issued in a group
while a session is live it fails with AlreadyActive and leaves the state
untouched.  The question-count selection callback (which actually creates
the session) performs no such check: whenever its draw succeeds it installs
a fresh session with the newly requested question count, replacing any live
one. -/
theorem start_session_guard_amended (st : GameState) (chat : Nat)
    (hlive : (dlookup st.active_games chat).isSome = true) :
    play_command st chat false = (st, [BotEvent.alreadyActive]) ∧
    (∀ fuel n k now q,
      (get_random_unused_question st chat k).2 = some q →
      (dlookup (game_selection_callback fuel st chat n k now).1.active_games
          chat).map ActiveGame.total_questions = some n) := by
  constructor
  · unfold play_command
    simp [hlive]
  · intro fuel n k now q hdraw
    simp only [game_selection_callback, hdraw]
    have hlook : dlookup
        (add_used_word
          (ensure_daily
            (set_game (get_random_unused_question st chat k).1 chat
              { ActiveGame.init chat n with current_question := some q }) chat)
          chat (strLower q.word)).active_games chat =
        some { ActiveGame.init chat n with current_question := some q } := by
      rw [active_games_add_used_word, active_games_ensure_daily]
      exact dlookup_dset_self _ _ _
    exact start_question_total_questions fuel _ chat k now _ hlook rfl

/-- C1 amended witness: in `stMid` (live 5-question session), `/play` is
rejected with state unchanged, while the callback installs the fresh
3-question session. -/
theorem start_session_guard_amended_witness :
    (dlookup stMid.active_games 99).isSome = true ∧
    play_command stMid 99 false = (stMid, [BotEvent.alreadyActive]) ∧
    (dlookup (game_selection_callback 2 stMid 99 3 0 0).1.active_games 99).map
      ActiveGame.total_questions = some 3 :=
  ⟨rfl, (start_session_guard_amended stMid 99 rfl).1,
   (start_session_guard_amended stMid 99 rfl).2 2 3 0 0 qBanana rfl⟩
theorem set_game_daily_data (st : GameState) (chat : Nat) (g : ActiveGame) :
    (set_game st chat g).daily_data = st.daily_data := rfl

theorem set_daily_daily_data (st : GameState) (chat : Nat) (d : DailyData) :
    (set_daily st chat d).daily_data = dset st.daily_data chat d := rfl

theorem dlookup_update_fastest_self (f : List (Nat × ℚ)) (u : Nat) (t : ℚ) :
    dlookup (update_fastest f u t) u =
      some (match dlookup f u with | none => t | some v => min v t) := by
  unfold update_fastest
  cases hf : dlookup f u with
  | none => simp [dlookup_dset_self]
  | some v =>
    by_cases h : t < v
    · simp [h, dlookup_dset_self, min_eq_right h.le]
    · simp [h, hf, min_eq_left (le_of_not_lt h)]

theorem fold_update_fastest (u : Nat) (ts : List ℚ) (f : List (Nat × ℚ)) (v : ℚ)
    (hv : dlookup f u = some v) :
    dlookup (ts.foldl (fun m t => update_fastest m u t) f) u =
      some (ts.foldl min v) := by
  induction ts generalizing f v with
  | nil => simpa using hv
  | cons t ts ih =>
    simp only [List.foldl_cons]
    apply ih
    rw [dlookup_update_fastest_self, hv]

/-- C10: after each correct-guess resolution the room ledger's fastest-time
map is exactly `update_fastest` applied at the solver's elapsed time; that
update records the minimum (strictly-smaller-or-new wins), the recorded
value never increases, and folding the update over any sequence of elapsed
times from an empty (freshly reset) map yields exactly the minimum of the
sequence. -/
theorem fastest_time_spec (st : GameState) (chat user : Nat) (now : ℚ)
    (g : ActiveGame) (d : DailyData)
    (hg : dlookup st.active_games chat = some g)
    (hd : dlookup st.daily_data chat = some d) :
    ((dlookup (handle_correct_guess_core st chat user now).1.daily_data chat).map
        DailyData.fastest_guesses) =
      some (update_fastest d.fastest_guesses user (now - g.hint_start_time.getD 0)) ∧
    (∀ (f : List (Nat × ℚ)) (u : Nat) (t : ℚ),
      dlookup (update_fastest f u t) u =
        some (match dlookup f u with | none => t | some v => min v t)) ∧
    (∀ (f : List (Nat × ℚ)) (u : Nat) (t v : ℚ), dlookup f u = some v →
      ∃ w, dlookup (update_fastest f u t) u = some w ∧ w ≤ v) ∧
    (∀ (u : Nat) (ts : List ℚ),
      dlookup (ts.foldl (fun m t => update_fastest m u t) []) u = ts.min?) := by
  refine ⟨?_, dlookup_update_fastest_self, ?_, ?_⟩
  · simp only [handle_correct_guess_core, hg, hd]
    repeat' split
    all_goals
      simp [set_game_daily_data, set_daily_daily_data, dlookup_dset_self]
  · intro f u t v hv
    refine ⟨_, dlookup_update_fastest_self f u t, ?_⟩
    rw [hv]
    exact min_le_left v t
  · intro u ts
    cases ts with
    | nil => rfl
    | cons t ts =>
      rw [List.foldl_cons,
        fold_update_fastest u ts _ t (by rw [dlookup_update_fastest_self]; rfl)]
      rfl

/-- C10 witness: resolving user 2's correct guess at t = 3 in the fresh room
(hint started at 0) records fastest time via `update_fastest` at elapsed 3. -/
theorem fastest_time_spec_witness :
    dlookup stFresh.active_games 99 = some gameFresh ∧
    dlookup stFresh.daily_data 99 = some DailyData.init ∧
    ((dlookup (handle_correct_guess_core stFresh 99 2 3).1.daily_data 99).map
        DailyData.fastest_guesses) =
      some (update_fastest DailyData.init.fastest_guesses 2
        (3 - gameFresh.hint_start_time.getD 0)) :=
  ⟨rfl, rfl, (fastest_time_spec stFresh 99 2 3 gameFresh DailyData.init rfl rfl).1⟩
theorem set_game_active_games (st : GameState) (chat : Nat) (g : ActiveGame) :
    (set_game st chat g).active_games = dset st.active_games chat g := rfl

theorem set_daily_active_games (st : GameState) (chat : Nat) (d : DailyData) :
    (set_daily st chat d).active_games = st.active_games := rfl

theorem steal_decision_isSome_iff (g : ActiveGame) (d : DailyData)
    (user : Nat) (now : ℚ) :
    (steal_decision g d user now).isSome ↔
      (g.wrong_guessers ≠ [] ∧ dgetD d.steal_used user false = false ∧
       ∃ p ∈ g.wrong_guessers, now - p.2 ≤ STEAL_WINDOW_SECONDS) := by
  unfold steal_decision
  by_cases ha : g.wrong_guessers.isEmpty
  · have he := List.isEmpty_iff.mp ha
    simp [ha, he]
  · have hisE : g.wrong_guessers.isEmpty = false := by
      simpa using ha
    have hne : g.wrong_guessers ≠ [] := by
      simpa using hisE
    by_cases hb : dgetD d.steal_used user false
    · simp [hisE, hb]
    · have hb' : dgetD d.steal_used user false = false := by
        simpa using hb
      simp [hisE, hb', hne, List.find?_isSome]

theorem steal_decision_some (g : ActiveGame) (d : DailyData) (user v : Nat)
    (tv now : ℚ)
    (hf : g.wrong_guessers.find?
      (fun p => decide (now - p.2 ≤ STEAL_WINDOW_SECONDS)) = some (v, tv))
    (hflag : dgetD d.steal_used user false = false) :
    steal_decision g d user now = some v := by
  have hne : g.wrong_guessers ≠ [] := by
    intro e
    rw [e] at hf
    simp at hf
  have hisE : g.wrong_guessers.isEmpty = false := by simpa using hne
  unfold steal_decision
  rw [hisE, hflag, hf]
  rfl

theorem steal_decision_flag_blocks (g : ActiveGame) (d : DailyData)
    (user : Nat) (now : ℚ) (hflag : dgetD d.steal_used user false = true) :
    steal_decision g d user now = none := by
  unfold steal_decision
  rw [hflag]
  simp

theorem core_steal_from (st : GameState) (chat user : Nat) (now : ℚ)
    (g : ActiveGame) (d : DailyData)
    (hg : dlookup st.active_games chat = some g)
    (hd : dlookup st.daily_data chat = some d) :
    (handle_correct_guess_core st chat user now).2.steal_from =
      steal_decision g d user now := by
  simp only [handle_correct_guess_core, hg, hd]

/-- C2: on a correct guess, a steal fires iff (a) the current window's
wrong-guess log is non-empty, (b) the solver's steal flag is unset, and
(c) some wrong guess lies within the 2-unit window of now; the victim is the
first wrong guess in insertion order inside the window; the victim's daily
and per-session totals each drop by exactly 1, the victim's streak becomes
0, and the solver's flag becomes consumed — after which (the flag being set
in the daily scope) no later correct guess by the same solver fires a
second steal.  (Hypotheses: Telegram user ids are positive, and the solver
cannot be in the current window's wrong-guess log, since only a user's
first message per window is processed.) -/
theorem steal_resolution_spec (st : GameState) (chat user : Nat) (now : ℚ)
    (g : ActiveGame) (d : DailyData)
    (hg : dlookup st.active_games chat = some g)
    (hd : dlookup st.daily_data chat = some d)
    (hpos : ∀ p ∈ g.wrong_guessers, p.1 ≠ 0)
    (hnu : ∀ p ∈ g.wrong_guessers, p.1 ≠ user) :
    ((handle_correct_guess_core st chat user now).2.steal_from.isSome ↔
      (g.wrong_guessers ≠ [] ∧ dgetD d.steal_used user false = false ∧
       ∃ p ∈ g.wrong_guessers, now - p.2 ≤ STEAL_WINDOW_SECONDS)) ∧
    (∀ v tv,
      g.wrong_guessers.find? (fun p => decide (now - p.2 ≤ STEAL_WINDOW_SECONDS))
        = some (v, tv) →
      dgetD d.steal_used user false = false →
      (handle_correct_guess_core st chat user now).2.steal_from = some v ∧
      ((dlookup (handle_correct_guess_core st chat user now).1.daily_data chat).bind
        (fun x => dlookup x.leaderboard v)) = some (dgetD d.leaderboard v 0 - 1) ∧
      ((dlookup (handle_correct_guess_core st chat user now).1.active_games chat).bind
        (fun x => dlookup x.game_leaderboard v)) =
          some (dgetD g.game_leaderboard v 0 - 1) ∧
      ((dlookup (handle_correct_guess_core st chat user now).1.daily_data chat).bind
        (fun x => dlookup x.streaks v)) = some 0 ∧
      ((dlookup (handle_correct_guess_core st chat user now).1.daily_data chat).bind
        (fun x => dlookup x.steal_used user)) = some true) ∧
    (dgetD d.steal_used user false = true →
      (handle_correct_guess_core st chat user now).2.steal_from = none) := by
  refine ⟨?_, ?_, ?_⟩
  · rw [core_steal_from st chat user now g d hg hd]
    exact steal_decision_isSome_iff g d user now
  · intro v tv hf hflag
    have hmem : (v, tv) ∈ g.wrong_guessers := List.mem_of_find?_eq_some hf
    have hv0 : v ≠ 0 := hpos _ hmem
    have hvu : v ≠ user := hnu _ hmem
    have hsd : steal_decision g d user now = some v :=
      steal_decision_some g d user v tv now hf hflag
    refine ⟨?_, ?_, ?_, ?_, ?_⟩
    · rw [core_steal_from st chat user now g d hg hd, hsd]
    all_goals
      simp [handle_correct_guess_core, hg, hd, hsd, hv0, hvu,
        set_game_active_games, set_daily_active_games, set_game_daily_data,
        set_daily_daily_data, dlookup_dset_self, dlookup_dset_ne, dgetD_dset_ne]
  · intro hflag
    rw [core_steal_from st chat user now g d hg hd]
    exact steal_decision_flag_blocks g d user now hflag
/-- C2 witness: the spec's scenario — user 1 wrong at t = 0, user 2 correct
at t = 3/2 (window 2): user 1 ends at his total minus 1 with streak 0, and
user 2's steal flag is consumed. -/
theorem steal_resolution_spec_witness :
    (handle_correct_guess_core stSteal 99 2 (3/2)).2.steal_from = some 1 ∧
    ((dlookup (handle_correct_guess_core stSteal 99 2 (3/2)).1.daily_data 99).bind
      (fun x => dlookup x.leaderboard 1)) =
        some (dgetD DailyData.init.leaderboard 1 0 - 1) ∧
    ((dlookup (handle_correct_guess_core stSteal 99 2 (3/2)).1.active_games 99).bind
      (fun x => dlookup x.game_leaderboard 1)) =
        some (dgetD gameSteal.game_leaderboard 1 0 - 1) ∧
    ((dlookup (handle_correct_guess_core stSteal 99 2 (3/2)).1.daily_data 99).bind
      (fun x => dlookup x.streaks 1)) = some 0 ∧
    ((dlookup (handle_correct_guess_core stSteal 99 2 (3/2)).1.daily_data 99).bind
      (fun x => dlookup x.steal_used 2)) = some true := by
  have hf : gameSteal.wrong_guessers.find?
      (fun p => decide ((3/2 : ℚ) - p.2 ≤ STEAL_WINDOW_SECONDS)) = some (1, 0) := by
    show List.find? _ [((1 : Nat), (0 : ℚ))] = _
    rw [List.find?_cons_of_pos]
    norm_num [STEAL_WINDOW_SECONDS]
  exact (steal_resolution_spec stSteal 99 2 (3/2) gameSteal DailyData.init rfl rfl
    (by simp [gameSteal]) (by simp [gameSteal])).2.1 1 0 hf rfl

theorem dlookup_ddel_self {α : Type} (m : List (Nat × α)) (k : Nat) :
    dlookup (ddel m k) k = none := by
  induction m with
  | nil => rfl
  | cons p m ih =>
    by_cases hp : p.1 = k
    · simpa [ddel, hp] using ih
    · simpa [ddel, hp, dlookup_cons] using ih

/-- After `end_game` the room has no live game. -/
theorem end_game_no_game (st : GameState) (chat : Nat) (g3 : ActiveGame)
    (h : dlookup (end_game st chat).1.active_games chat = some g3) : False := by
  unfold end_game at h
  split at h
  · simp_all
  · split at h <;>
      · simp only [dlookup_ddel_self] at h
        cases h

/-- `start_hint` never touches the near-miss shown-set: within a question
(hint index not yet past 5), the room's game after `start_hint` carries the
same `near_miss_shown`. -/
theorem start_hint_keeps_near_miss (f : Nat) (st : GameState) (chat : Nat)
    (now : ℚ) (k : Nat) (n2 : ℚ) (g : ActiveGame)
    (hg : dlookup st.active_games chat = some g)
    (hans : g.answered = false)
    (hle : g.current_hint + 1 ≤ MAX_HINTS) :
    (dlookup (start_hint f st chat now k n2).1.active_games chat).map
      ActiveGame.near_miss_shown = some g.near_miss_shown := by
  cases f with
  | zero => simp [start_hint, hg]
  | succ f =>
    have hgt : ¬ (g.current_hint + 1 > MAX_HINTS) := not_lt.mpr hle
    simp [start_hint, hg, hans, hgt, set_game_active_games, dlookup_dset_self]
    split <;> rfl

theorem start_hint_after_set_near_miss (f : Nat) (st0 : GameState)
    (chat : Nat) (now : ℚ) (k : Nat) (n2 : ℚ) (w : String) (g g3 : ActiveGame)
    (hsh : g.near_miss_shown = []) (hans : g.answered = false)
    (hle : g.current_hint + 1 ≤ MAX_HINTS)
    (hres : dlookup (start_hint f (add_used_word (set_game st0 chat g) chat w)
      chat now k n2).1.active_games chat = some g3) :
    g3.near_miss_shown = [] := by
  have hg : dlookup (add_used_word (set_game st0 chat g) chat w).active_games
      chat = some g := by
    rw [active_games_add_used_word, set_game_active_games]
    exact dlookup_dset_self _ _ _
  have hkeep := start_hint_keeps_near_miss f _ chat now k n2 g hg hans hle
  rw [hres] at hkeep
  simpa [hsh] using hkeep

theorem start_hint_after_set_near_miss2 (f : Nat) (st0 : GameState)
    (chat : Nat) (now : ℚ) (k : Nat) (n2 : ℚ) (g g3 : ActiveGame)
    (hsh : g.near_miss_shown = []) (hans : g.answered = false)
    (hle : g.current_hint + 1 ≤ MAX_HINTS)
    (hres : dlookup (start_hint f (set_game st0 chat g)
      chat now k n2).1.active_games chat = some g3) :
    g3.near_miss_shown = [] := by
  have hg : dlookup (set_game st0 chat g).active_games chat = some g := by
    rw [set_game_active_games]
    exact dlookup_dset_self _ _ _
  have hkeep := start_hint_keeps_near_miss f _ chat now k n2 g hg hans hle
  rw [hres] at hkeep
  simpa [hsh] using hkeep

/-- `start_question` clears the near-miss shown-set: whatever game is live
for the room after it ran has an empty `near_miss_shown`. -/
theorem start_question_clears_near_miss (f : Nat) (st : GameState)
    (chat k : Nat) (now : ℚ) (g3 : ActiveGame)
    (hres : dlookup (start_question (f + 1) st chat k now).1.active_games chat
      = some g3) :
    g3.near_miss_shown = [] := by
  dsimp only [start_question] at hres
  split at hres
  · simp_all
  · split at hres
    · split at hres
      · exact absurd hres (fun h => end_game_no_game _ _ _ h)
      · exact start_hint_after_set_near_miss f _ chat now k now _ _ g3
          rfl rfl (by simp [MAX_HINTS]) hres
    · exact start_hint_after_set_near_miss2 f _ chat now k now _ g3
        rfl rfl (by simp [MAX_HINTS]) hres
/-- C7: on a wrong guess the near-miss signal is emitted iff the normalized
guess's similarity to the answer reaches 0.75 and the user has not yet been
shown near-miss feedback this question; the emission marks the user shown,
so a second near-threshold wrong guess by the same user emits nothing;
the shown-set survives `start_hint` (later hint windows of the same
question) and is cleared by `start_question` (the next question). -/
theorem near_miss_once_spec (st : GameState) (chat user : Nat)
    (guess answer : String) (now : ℚ) (g : ActiveGame) (d : DailyData)
    (hg : dlookup st.active_games chat = some g)
    (hd : dlookup st.daily_data chat = some d) :
    ((handle_wrong_guess st chat user guess answer now).2 =
      if calculate_similarity guess answer ≥ NEAR_MISS_THRESHOLD ∧
          g.near_miss_shown.contains user = false
        then [BotEvent.nearMiss user] else []) ∧
    (calculate_similarity guess answer ≥ NEAR_MISS_THRESHOLD →
      g.near_miss_shown.contains user = false →
      (handle_wrong_guess st chat user guess answer now).2 =
        [BotEvent.nearMiss user] ∧
      ∀ (guess2 : String) (now2 : ℚ),
        (handle_wrong_guess (handle_wrong_guess st chat user guess answer now).1
          chat user guess2 answer now2).2 = []) ∧
    (∀ (f : Nat) (st2 : GameState) (chat2 : Nat) (now0 : ℚ) (k : Nat) (n2 : ℚ)
        (g2 : ActiveGame),
      dlookup st2.active_games chat2 = some g2 → g2.answered = false →
      g2.current_hint + 1 ≤ MAX_HINTS →
      (dlookup (start_hint f st2 chat2 now0 k n2).1.active_games chat2).map
        ActiveGame.near_miss_shown = some g2.near_miss_shown) ∧
    (∀ (f : Nat) (st3 : GameState) (chat3 k3 : Nat) (n3 : ℚ) (g3 : ActiveGame),
      dlookup (start_question (f + 1) st3 chat3 k3 n3).1.active_games chat3
        = some g3 → g3.near_miss_shown = []) := by
  refine ⟨?_, ?_, ?_, ?_⟩
  · cases hnmv : is_near_miss guess answer with
    | false =>
      have hP : ¬ (calculate_similarity guess answer ≥ NEAR_MISS_THRESHOLD) :=
        of_decide_eq_false hnmv
      simp [handle_wrong_guess, hg, hd, hnmv, hP]
    | true =>
      have hP : calculate_similarity guess answer ≥ NEAR_MISS_THRESHOLD :=
        of_decide_eq_true hnmv
      cases hct : g.near_miss_shown.contains user with
      | false =>
        have hmem : user ∉ g.near_miss_shown := by simpa using hct
        simp [handle_wrong_guess, hg, hd, hnmv, hP, hmem]
      | true =>
        have hmem : user ∈ g.near_miss_shown := by simpa using hct
        simp [handle_wrong_guess, hg, hd, hnmv, hP, hmem]
  · intro hP hct
    have hnmv : is_near_miss guess answer = true := decide_eq_true hP
    have hmem : user ∉ g.near_miss_shown := by simpa using hct
    constructor
    · simp [handle_wrong_guess, hg, hd, hnmv, hmem]
    · intro guess2 now2
      simp [handle_wrong_guess, hg, hd, hnmv, hmem, saddNat,
        set_game_active_games, set_daily_active_games, set_game_daily_data,
        set_daily_daily_data, dlookup_dset_self]
  · exact fun f st2 chat2 now0 k n2 g2 hg2 ha hl =>
      start_hint_keeps_near_miss f st2 chat2 now0 k n2 g2 hg2 ha hl
  · exact fun f st3 chat3 k3 n3 g3 h =>
      start_question_clears_near_miss f st3 chat3 k3 n3 g3 h

/-- C7 witness: guess "appl" against answer "apple" (similarity 8/9 ≥ 0.75)
by user 1 in the fresh room: the first wrong guess emits exactly one
near-miss signal, and an identical second wrong guess emits none. -/
theorem near_miss_once_spec_witness :
    (handle_wrong_guess stFresh 99 1 "appl" "apple" 1).2 =
      [BotEvent.nearMiss 1] ∧
    (handle_wrong_guess (handle_wrong_guess stFresh 99 1 "appl" "apple" 1).1
      99 1 "appl" "apple" 2).2 = [] := by
  have hnm : is_near_miss "appl" "apple" = true := by
    rw [is_near_miss_iff_nat]
    rfl
  have hP : calculate_similarity "appl" "apple" ≥ NEAR_MISS_THRESHOLD :=
    of_decide_eq_true hnm
  have h2 := (near_miss_once_spec stFresh 99 1 "appl" "apple" 1 gameFresh
    DailyData.init rfl rfl).2.1 hP rfl
  exact ⟨h2.1, h2.2 "appl" 2⟩
theorem callback_state_eq :
    (game_selection_callback 2 stStart 99 3 0 0).1 = stQ1 := by decide

theorem wrong_guess_state_eq :
    (handle_message 2 stQ1 99 1 "Alice" "zzz" 10 0 0).1 = stWrong := by
  have hg1 : strLower (strTrim "zzz") = "zzz" := by decide
  have hg2 : strLower "apple" = "apple" := by decide
  have hz : ("zzz" : String) ≠ "apple" := by decide
  have hnm : is_near_miss "zzz" "apple" = false := by
    rw [is_near_miss_iff_nat]; rfl
  norm_num [hg1, hg2, handle_message, handle_wrong_guess, stQ1, gameFresh,
    stWrong, gameMsgd, dWrong, dUsed, ActiveGame.init, DailyData.init, qApple,
    set_game, set_daily, ensure_daily, modify_daily, dset, dlookup, dgetD,
    hz, hnm]

theorem dispatch_correct_eq :
    handle_message 2 stWrong 99 2 "Bob" "apple" (23/2) 0 0 =
      handle_correct_guess 2 stMsg2 99 2 (23/2) 0 0 := by
  have hs1 : strLower (strTrim "apple") = "apple" := by decide
  have hs2 : strLower "apple" = "apple" := by decide
  norm_num [hs1, hs2, handle_message, stWrong, gameMsgd, gameFresh, stMsg2,
    gameMsg2, dMsg2, dWrong, dUsed, ActiveGame.init, DailyData.init, qApple,
    set_game, set_daily, ensure_daily, modify_daily, dset, dlookup]

theorem get_random_fst (st : GameState) (chat k : Nat) :
    (get_random_unused_question st chat k).1 = ensure_daily st chat := rfl

theorem ensure_daily_of_isSome (st : GameState) (chat : Nat)
    (h : (dlookup st.daily_data chat).isSome = true) :
    ensure_daily st chat = st := by
  unfold ensure_daily
  simp [h]

theorem end_game_daily (st : GameState) (chat : Nat) :
    (end_game st chat).1.daily_data = st.daily_data := by
  unfold end_game
  split
  · rfl
  · split <;> rfl

theorem add_used_word_daily (st : GameState) (chat : Nat) (w : String)
    (d : DailyData) (hd : dlookup st.daily_data chat = some d) :
    dlookup (add_used_word st chat w).daily_data chat =
      some { d with used_words := saddStr d.used_words w } := by
  unfold add_used_word modify_daily
  rw [hd]
  simp [set_daily_daily_data, dlookup_dset_self]

/-- `start_hint` leaves the daily ledger untouched while the hint index is
not yet past 5. -/
theorem start_hint_daily_of_le (f : Nat) (st : GameState) (chat : Nat)
    (now : ℚ) (k : Nat) (n2 : ℚ) (g : ActiveGame)
    (hg : dlookup st.active_games chat = some g)
    (hle : g.current_hint + 1 ≤ MAX_HINTS) :
    (start_hint f st chat now k n2).1.daily_data = st.daily_data := by
  cases f with
  | zero => rfl
  | succ f =>
    have hgt : ¬ (g.current_hint + 1 > MAX_HINTS) := not_lt.mpr hle
    cases ha : g.answered with
    | true => simp [start_hint, hg, ha]
    | false =>
      simp only [start_hint, hg, ha, Bool.false_eq_true, if_false, hgt]
      split <;> rfl
/-- The daily leaderboard map survives `start_question` unchanged (only
`used_words` can change there). -/
theorem start_question_leaderboard (f : Nat) (st : GameState) (chat k : Nat)
    (now : ℚ) (d : DailyData)
    (hd : dlookup st.daily_data chat = some d) :
    (dlookup (start_question f st chat k now).1.daily_data chat).map
      DailyData.leaderboard = some d.leaderboard := by
  cases f with
  | zero => simp [start_question, hd]
  | succ f =>
    dsimp only [start_question]
    split
    · simp [hd]
    · split
      · split
        · rw [end_game_daily, get_random_fst,
            ensure_daily_of_isSome _ _ (by simp [set_game_daily_data, hd]),
            set_game_daily_data, hd]
          rfl
        · rw [start_hint_daily_of_le f _ chat now k now _
            (by rw [active_games_add_used_word, set_game_active_games]
                exact dlookup_dset_self _ _ _)
            (by simp [MAX_HINTS])]
          rw [add_used_word_daily _ _ _ d
            (by rw [set_game_daily_data, get_random_fst,
                  ensure_daily_of_isSome _ _ (by simp [set_game_daily_data, hd]),
                  set_game_daily_data]
                exact hd)]
          rfl
      · rw [start_hint_daily_of_le f _ chat now k now _
          (by rw [set_game_active_games]; exact dlookup_dset_self _ _ _)
          (by simp [MAX_HINTS])]
        rw [set_game_daily_data, hd]
        rfl

/-- The daily leaderboard map produced by the correct-guess core survives
the continuation (next question or game end) of `handle_correct_guess`. -/
theorem handle_correct_daily_leaderboard (fuel : Nat) (st : GameState)
    (chat user : Nat) (now : ℚ) (k : Nat) (n2 : ℚ) (L : List (Nat × ℚ))
    (hcore : (dlookup (handle_correct_guess_core st chat user now).1.daily_data
      chat).map DailyData.leaderboard = some L) :
    (dlookup (handle_correct_guess fuel st chat user now k n2).1.daily_data
      chat).map DailyData.leaderboard = some L := by
  unfold handle_correct_guess
  dsimp only
  split
  · exact hcore
  · split
    · obtain ⟨d2, hd2, hL⟩ := Option.map_eq_some'.mp hcore
      rw [start_question_leaderboard fuel _ chat k n2 _ hd2, hL]
    · rw [end_game_daily]
      exact hcore

theorem core_daily_leaderboard_eq :
    (dlookup (handle_correct_guess_core stMsg2 99 2 (23/2)).1.daily_data 99).map
      DailyData.leaderboard = some [(2, 10), (1, -1)] := by
  have hf : gameMsg2.wrong_guessers.find?
      (fun p => decide ((23/2 : ℚ) - p.2 ≤ STEAL_WINDOW_SECONDS))
        = some (1, 10) := by
    show List.find? _ [((1 : Nat), (10 : ℚ))] = _
    rw [List.find?_cons_of_pos]
    norm_num [STEAL_WINDOW_SECONDS]
  have hsd : steal_decision gameMsg2 dMsg2 2 (23/2) = some 1 :=
    steal_decision_some gameMsg2 dMsg2 2 1 10 (23/2) hf rfl
  have hl1 : dlookup stMsg2.active_games 99 = some gameMsg2 := rfl
  have hl2 : dlookup stMsg2.daily_data 99 = some dMsg2 := rfl
  simp only [handle_correct_guess_core, hl1, hl2, hsd]
  norm_num [stMsg2, gameMsg2, gameMsgd, gameFresh, dMsg2, dUsed,
    ActiveGame.init, DailyData.init, qApple, set_game_daily_data,
    set_daily_daily_data, dset, dlookup, dgetD, calculate_points,
    BASE_POINTS, MILESTONES, FAST_FINGER_BONUS_SECONDS, update_fastest]

/-- C9: point totals are not bounded below by zero — from the empty state,
start a 3-question game at t = 0, let user 1 guess wrong at t = 10 and user
2 answer correctly at t = 23/2 (inside the steal window): the reached state
has user 1's daily leaderboard total at -1 < 0, an entry created by the
steal penalty. -/
theorem negative_daily_total_reachable :
    ((dlookup (handle_message 2 (handle_message 2
        (game_selection_callback 2 stStart 99 3 0 0).1
        99 1 "Alice" "zzz" 10 0 0).1
        99 2 "Bob" "apple" (23/2) 0 0).1.daily_data 99).bind
      (fun x => dlookup x.leaderboard 1)) = some (-1) ∧ (-1 : ℚ) < 0 := by
  rw [callback_state_eq, wrong_guess_state_eq, dispatch_correct_eq]
  refine ⟨?_, by norm_num⟩
  have hL := handle_correct_daily_leaderboard 2 stMsg2 99 2 (23/2) 0 0
    [(2, 10), (1, -1)] core_daily_leaderboard_eq
  obtain ⟨d2, hd2, hLL⟩ := Option.map_eq_some'.mp hL
  rw [hd2, Option.some_bind, hLL]
  norm_num [dlookup_cons]
